import Mathlib

/-!
Verification of the vehicle lifecycle-emissions core (carbon engine,
break-even analyzer, recommendation engine) against its specification.

The Python source is shallowly embedded over ℚ: every numeric value of the
program (Python floats) is modelled as an exact rational, and Python's
`round(x, ndigits)` (round-half-to-even on the decimal value) is modelled by
`rhe` / `round1` below.  Fallible code (dict lookups that can raise KeyError,
the explicit `raise ValueError`, float division by zero) is modelled with
`Except`.
-/

namespace EcoLCA

instance instDecEqExcept {ε α : Type} [DecidableEq ε] [DecidableEq α] :
    DecidableEq (Except ε α)
  | .ok x, .ok y => decidable_of_iff (x = y) (by simp)
  | .error x, .error y => decidable_of_iff (x = y) (by simp)
  | .ok _, .error _ => isFalse (by simp)
  | .error _, .ok _ => isFalse (by simp)

/-- Round-half-to-even to the nearest integer, the model of Python's
built-in `round` on exact decimal values. -/
def rhe (x : ℚ) : ℤ :=
  if x - ⌊x⌋ < 1/2 then ⌊x⌋
  else if 1/2 < x - ⌊x⌋ then ⌊x⌋ + 1
  else if ⌊x⌋ % 2 = 0 then ⌊x⌋ else ⌊x⌋ + 1

/-- Model of Python `round(x, 1)`: round to one decimal place. -/
def round1 (x : ℚ) : ℚ := (rhe (10 * x) : ℚ) / 10

/-- Model of Python `round(x, 0)`: round to zero decimal places. -/
def round0 (x : ℚ) : ℚ := (rhe x : ℚ)

theorem rhe_eq_floor_or_succ (x : ℚ) : rhe x = ⌊x⌋ ∨ rhe x = ⌊x⌋ + 1 := by
  unfold rhe
  split_ifs <;> simp

theorem abs_rhe_sub_le (x : ℚ) : |(rhe x : ℚ) - x| ≤ 1/2 := by
  have hfl := Int.floor_le x
  have hlt := Int.lt_floor_add_one x
  unfold rhe
  split_ifs with h1 h2 h3
  · rw [abs_le]; constructor <;> linarith
  · rw [abs_le]
    refine ⟨by push_cast; linarith, by push_cast; linarith⟩
  · have hx : x - ⌊x⌋ = 1/2 := le_antisymm (not_lt.mp h2) (not_lt.mp h1)
    rw [abs_le]
    refine ⟨by linarith, by linarith⟩
  · have hx : x - ⌊x⌋ = 1/2 := le_antisymm (not_lt.mp h2) (not_lt.mp h1)
    rw [abs_le]
    refine ⟨by push_cast; linarith, by push_cast; linarith⟩

theorem rhe_intCast (n : ℤ) : rhe (n : ℚ) = n := by
  unfold rhe
  rw [Int.floor_intCast]
  simp

theorem rhe_nonneg {x : ℚ} (hx : 0 ≤ x) : 0 ≤ rhe x := by
  have h0 : (0 : ℤ) ≤ ⌊x⌋ := Int.floor_nonneg.mpr hx
  rcases rhe_eq_floor_or_succ x with h | h <;> omega

theorem le_rhe_of_intCast_le {n : ℤ} {x : ℚ} (h : (n : ℚ) ≤ x) : n ≤ rhe x := by
  have h0 : n ≤ ⌊x⌋ := Int.le_floor.mpr h
  rcases rhe_eq_floor_or_succ x with h' | h' <;> omega

theorem rhe_le_of_le_intCast {n : ℤ} {x : ℚ} (h : x ≤ (n : ℚ)) : rhe x ≤ n := by
  rcases eq_or_lt_of_le h with heq | hlt
  · rw [heq, rhe_intCast]
  · have h1 : (⌊x⌋ : ℚ) < (n : ℚ) := lt_of_le_of_lt (Int.floor_le x) hlt
    have h2 : ⌊x⌋ < n := by exact_mod_cast h1
    rcases rhe_eq_floor_or_succ x with h' | h' <;> omega

theorem round1_nonneg {x : ℚ} (hx : 0 ≤ x) : 0 ≤ round1 x := by
  unfold round1
  have : (0 : ℤ) ≤ rhe (10 * x) := rhe_nonneg (by linarith)
  positivity

theorem abs_round1_sub_le (x : ℚ) : |round1 x - x| ≤ 1/20 := by
  unfold round1
  have h := abs_rhe_sub_le (10 * x)
  have : (rhe (10 * x) : ℚ) / 10 - x = ((rhe (10 * x) : ℚ) - 10 * x) / 10 := by ring
  rw [this, abs_div]
  rw [show |(10 : ℚ)| = 10 by norm_num]
  linarith

/-- `round1` is the identity on exact multiples of one tenth. -/
theorem round1_of_tenth (n : ℤ) : round1 ((n : ℚ) / 10) = (n : ℚ) / 10 := by
  unfold round1
  rw [show (10 : ℚ) * ((n : ℚ) / 10) = (n : ℚ) by ring, rhe_intCast]

/-! ## data_loader.py -/

/-- Physical and chemical parameters for a vehicle powertrain
(`VehicleParams` dataclass in `data_loader.py`). -/
structure VehicleParams where
  glider_manufacturing_kg : ℚ
  powertrain_manufacturing_kg : ℚ
  battery_manufacturing_per_kwh : ℚ
  battery_capacity_kwh : ℚ
  energy_consumption_per_100km : ℚ
  fuel_type : String
  disposal_kg : ℚ
  battery_eol_factor : ℚ
deriving DecidableEq, Repr

/-- `FUEL_EMISSION_FACTORS["petrol"]` (kg CO2-eq per litre, Well-to-Wheel). -/
def FUEL_EMISSION_FACTORS_petrol : ℚ := 2392/1000

/-- `FUEL_EMISSION_FACTORS["diesel"]` (kg CO2-eq per litre, Well-to-Wheel). -/
def FUEL_EMISSION_FACTORS_diesel : ℚ := 2640/1000

/-- The `"BEV"` entry of the `VEHICLE_PARAMS` dict. -/
def bevParams : VehicleParams :=
  ⟨6500, 400, 150, 60, 18, "electricity", 200, 20⟩

/-- The `"PHEV"` entry of the `VEHICLE_PARAMS` dict. -/
def phevParams : VehicleParams :=
  ⟨7000, 800, 150, 14, 55/10, "hybrid_petrol", 250, 20⟩

/-- The `"HEV"` entry of the `VEHICLE_PARAMS` dict. -/
def hevParams : VehicleParams :=
  ⟨7200, 900, 150, 15/10, 5, "hybrid_petrol", 280, 20⟩

/-- The `"ICEV-p"` entry of the `VEHICLE_PARAMS` dict. -/
def icevpParams : VehicleParams :=
  ⟨6800, 1500, 0, 0, 75/10, "petrol", 350, 0⟩

/-- The `"ICEV-d"` entry of the `VEHICLE_PARAMS` dict. -/
def icevdParams : VehicleParams :=
  ⟨7000, 1700, 0, 0, 6, "diesel", 370, 0⟩

/-- The `VEHICLE_PARAMS` dict as a partial lookup function; `none` models a
`KeyError` on an unknown vehicle-type key. -/
def VEHICLE_PARAMS (vehicle_type : String) : Option VehicleParams :=
  if vehicle_type = "BEV" then some bevParams
  else if vehicle_type = "PHEV" then some phevParams
  else if vehicle_type = "HEV" then some hevParams
  else if vehicle_type = "ICEV-p" then some icevpParams
  else if vehicle_type = "ICEV-d" then some icevdParams
  else none

/-- Vehicle size class (`Literal["small", "medium", "large"]`, validated at
the boundary before reaching the engine). -/
inductive VehicleSize where
  | small
  | medium
  | large
deriving DecidableEq, Repr

/-- The `SIZE_MULTIPLIERS` dict (total on the validated size enumeration). -/
def SIZE_MULTIPLIERS : VehicleSize → ℚ
  | .small => 85/100
  | .medium => 1
  | .large => 120/100

/-- `PHEV_ELECTRIC_FRACTION`: share of km driven on electricity. -/
def PHEV_ELECTRIC_FRACTION : ℚ := 42/100

/-- `GREENWASHING_OPERATIONAL_THRESHOLD_PCT`. -/
def GREENWASHING_OPERATIONAL_THRESHOLD_PCT : ℚ := 5/100

/-- `GREENWASHING_TOTAL_THRESHOLD_KG`. -/
def GREENWASHING_TOTAL_THRESHOLD_KG : ℚ := 15000

/-! ## schemas.py / carbon_engine.py -/

/-- Which of the two greenwashing messages was produced (the messages are
f-strings over the numeric inputs; only their identity matters here). -/
inductive GreenwashReason where
  /-- Primary rule: near-zero operational share but large total
  ("misleading zero-emission labelling" message). -/
  | misleadingLabel
  /-- Secondary rule: BEV whose use-phase dominates on a carbon-intensive
  grid ("advocate grid decarbonisation" message). -/
  | gridAdvocacy
deriving DecidableEq, Repr

/-- `LifecycleResult` pydantic model. -/
structure LifecycleResult where
  vehicle_type : String
  manufacturing : ℚ
  use_phase : ℚ
  disposal : ℚ
  total : ℚ
  total_km : ℚ
  per_km : ℚ
  greenwashing_flag : Bool
  greenwashing_reason : Option GreenwashReason
deriving DecidableEq, Repr

instance : Inhabited LifecycleResult :=
  ⟨⟨"", 0, 0, 0, 0, 0, 0, false, none⟩⟩

/-- Failure modes of the calculation engine: `unknownVehicleType` models the
`KeyError` of the `VEHICLE_PARAMS` lookup, `unknownFuelType` the
`raise ValueError(f"Unknown fuel type: ...")` in `_calculate_use_phase`. -/
inductive CalcError where
  | unknownVehicleType (vehicle_type : String)
  | unknownFuelType (fuel : String)
deriving DecidableEq, Repr

/-- `_check_greenwashing` from `carbon_engine.py`. -/
def check_greenwashing (use_kg total_kg : ℚ) (vehicle_type : String) :
    Bool × Option GreenwashReason :=
  if total_kg = 0 then (false, none)
  else
    let operational_fraction := use_kg / total_kg
    if operational_fraction < GREENWASHING_OPERATIONAL_THRESHOLD_PCT ∧
        total_kg > GREENWASHING_TOTAL_THRESHOLD_KG then
      (true, some .misleadingLabel)
    else if vehicle_type = "BEV" ∧ operational_fraction > 70/100 then
      (true, some .gridAdvocacy)
    else (false, none)

/-- `_calculate_use_phase` from `carbon_engine.py`. -/
def calculate_use_phase (params : VehicleParams)
    (total_km grid_factor size_mult : ℚ) : Except CalcError ℚ :=
  let fuel := params.fuel_type
  let consumption := params.energy_consumption_per_100km * size_mult
  if fuel = "electricity" then
    let kwh_total := (consumption / 100) * total_km
    .ok (kwh_total * grid_factor)
  else if fuel = "petrol" then
    let litres_total := (consumption / 100) * total_km
    .ok (litres_total * FUEL_EMISSION_FACTORS_petrol)
  else if fuel = "diesel" then
    let litres_total := (consumption / 100) * total_km
    .ok (litres_total * FUEL_EMISSION_FACTORS_diesel)
  else if fuel = "hybrid_petrol" then
    let electric_fraction :=
      if params.battery_capacity_kwh > 14 then PHEV_ELECTRIC_FRACTION
      else 5/100
    let electric_km := total_km * electric_fraction
    let fossil_km := total_km * (1 - electric_fraction)
    let electric_emissions :=
      if params.battery_capacity_kwh > 14 then
        ((18 * size_mult / 100) * electric_km) * grid_factor
      else 0
    let fossil_emissions :=
      (consumption / 100) * fossil_km * FUEL_EMISSION_FACTORS_petrol
    .ok (electric_emissions + fossil_emissions)
  else .error (.unknownFuelType fuel)

/-- `_calculate_disposal` from `carbon_engine.py`. -/
def calculate_disposal (params : VehicleParams)
    (battery_kwh_actual size_mult : ℚ) : ℚ :=
  let body_disposal := params.disposal_kg * size_mult
  let battery_eol := battery_kwh_actual * params.battery_eol_factor
  body_disposal + battery_eol

/-- The `battery_kwh` binding of `calculate_lifecycle`: battery capacity
scales with vehicle size only when nonzero at baseline. -/
def battery_kwh_actual (params : VehicleParams) (size_mult : ℚ) : ℚ :=
  if params.battery_capacity_kwh > 0 then
    params.battery_capacity_kwh * size_mult
  else 0

/-- The `manufacturing_kg` binding of `calculate_lifecycle`:
glider + powertrain (size-scaled) + battery production. -/
def manufacturing_kg (params : VehicleParams) (size_mult : ℚ) : ℚ :=
  let glider_kg := params.glider_manufacturing_kg * size_mult
  let powertrain_kg := params.powertrain_manufacturing_kg * size_mult
  let battery_kg := battery_kwh_actual params size_mult *
    params.battery_manufacturing_per_kwh
  glider_kg + powertrain_kg + battery_kg

/-- `calculate_lifecycle` from `carbon_engine.py`. -/
def calculate_lifecycle (vehicle_type : String) (annual_km : ℚ) (years : ℕ)
    (grid_factor : ℚ) (vehicle_size : VehicleSize) :
    Except CalcError LifecycleResult :=
  match VEHICLE_PARAMS vehicle_type with
  | none => .error (.unknownVehicleType vehicle_type)
  | some params =>
    let size_mult := SIZE_MULTIPLIERS vehicle_size
    let total_km := annual_km * (years : ℚ)
    let battery_kwh := battery_kwh_actual params size_mult
    let manufacturing := manufacturing_kg params size_mult
    match calculate_use_phase params total_km grid_factor size_mult with
    | .error e => .error e
    | .ok use_kg =>
      let disposal_kg := calculate_disposal params battery_kwh size_mult
      let total_kg := manufacturing + use_kg + disposal_kg
      let per_km_g := if total_km > 0 then total_kg / total_km * 1000 else 0
      let gw := check_greenwashing use_kg total_kg vehicle_type
      .ok ⟨vehicle_type, round1 manufacturing, round1 use_kg,
           round1 disposal_kg, round1 total_kg, round0 total_km,
           round1 per_km_g, gw.1, gw.2⟩

/-- Projection used to state concrete facts about a calculation outcome. -/
def okResult (e : Except CalcError LifecycleResult) : LifecycleResult :=
  match e with
  | .ok r => r
  | .error _ => default

/-! ## break_even.py -/

/-- `BreakEvenPair` pydantic model. -/
structure BreakEvenPair where
  year : Option ℕ
  best_vehicle : String
  comparison_vehicle : String
  yearly_best_cumulative : List ℚ
  yearly_comparison_cumulative : List ℚ
deriving DecidableEq, Repr

/-- `BreakEvenComparison` pydantic model. -/
structure BreakEvenComparison where
  best_vehicle : String
  years_range : List ℕ
  pairs : List BreakEvenPair
deriving DecidableEq, Repr

/-- The sort key `lambda r: r.total` used by both `break_even.py` and
`recommendation_logic.py`. -/
def leTotal (a b : LifecycleResult) : Prop := a.total ≤ b.total

instance : DecidableRel leTotal :=
  fun a b => inferInstanceAs (Decidable (a.total ≤ b.total))

instance : IsTotal LifecycleResult leTotal :=
  ⟨fun a b => le_total a.total b.total⟩

instance : IsTrans LifecycleResult leTotal :=
  ⟨fun _ _ _ hab hbc => le_trans hab hbc⟩

/-- Python's `sorted(results, key=lambda r: r.total)`: a stable sort by
ascending total.  `List.insertionSort` with `leTotal` is stable, so it
computes the same list as CPython's stable sort with this key. -/
def sortByTotal (results : List LifecycleResult) : List LifecycleResult :=
  List.insertionSort leTotal results

/-- `_build_cumulative_curve` from `break_even.py`. -/
def build_cumulative_curve (result : LifecycleResult) (years : ℕ) : List ℚ :=
  let upfront := result.manufacturing + result.disposal
  let annual := if 0 < years then result.use_phase / (years : ℚ) else 0
  (List.range (years + 1)).map (fun (y : ℕ) => round1 (upfront + annual * (y : ℚ)))

/-- `_find_break_even_year` from `break_even.py`: first index where the best
curve is at or below the comparison curve, scanning the zipped curves. -/
def find_break_even_year : List ℚ → List ℚ → Option ℕ
  | b :: bs, c :: cs =>
    if b ≤ c then some 0 else (find_break_even_year bs cs).map (· + 1)
  | _, _ => none

/-- One iteration of the loop body of `compare_best_vs_all`: the
`BreakEvenPair` built for one comparison vehicle.  (The Python loop hoists
`best_curve` out of the loop; recomputing the same pure value here is
observationally identical.) -/
def make_break_even_pair (best other : LifecycleResult) (years : ℕ) :
    BreakEvenPair :=
  let best_curve := build_cumulative_curve best years
  let comparison_curve := build_cumulative_curve other years
  ⟨find_break_even_year best_curve comparison_curve,
   best.vehicle_type, other.vehicle_type, best_curve, comparison_curve⟩

/-- `compare_best_vs_all` from `break_even.py`.  The `| [] => none` arm of
the inner match is unreachable: the sorted list is empty only when the
input is, which the length guard has excluded. -/
def compare_best_vs_all (results : List LifecycleResult) (years : ℕ) :
    Option BreakEvenComparison :=
  if results.length < 2 then none
  else
    match sortByTotal results with
    | [] => none
    | best :: others =>
      let years_range := List.range (years + 1)
      let pairs := others.map (fun other => make_break_even_pair best other years)
      some ⟨best.vehicle_type, years_range, pairs⟩

/-! ## recommendation_logic.py -/

/-- One sentence of the composed reasoning text, carrying the data the
corresponding f-string interpolates (`_build_reasoning`). -/
inductive ReasoningItem where
  /-- Always-present headline naming the best vehicle, its total and per-km. -/
  | headline (vehicle : String) (total per_km : ℚ)
  /-- Savings sentence versus the worst option. -/
  | savings (kg pct : ℚ) (worst_vehicle : String)
  /-- "manufacturing dominates" note. -/
  | manufacturingDominates
  /-- "use-phase dominates, grid decarbonisation helps" note. -/
  | usePhaseDominates
  /-- Greenwashing alert quoting the best vehicle's reason. -/
  | greenwashAlert (reason : Option GreenwashReason)
deriving DecidableEq, Repr

/-- `RecommendationResult` pydantic model (reasoning modelled structurally). -/
structure RecommendationResult where
  recommended_vehicle : String
  total_emissions_kg : ℚ
  confidence_percentage : ℚ
  savings_vs_worst_kg : ℚ
  savings_vs_worst_pct : ℚ
  reasoning : List ReasoningItem
deriving DecidableEq, Repr

/-- Failure modes of `recommend_vehicle`: the explicit
`raise ValueError("No results to evaluate")`, and the
`ZeroDivisionError` Python raises when `gap_pct` divides by a zero
`second_best.total`. -/
inductive RecError where
  | emptyInput
  | divisionByZero
deriving DecidableEq, Repr

/-- `_build_reasoning` from `recommendation_logic.py`. -/
def build_reasoning (best worst : LifecycleResult)
    (savings_kg savings_pct : ℚ) : List ReasoningItem :=
  [ReasoningItem.headline best.vehicle_type best.total best.per_km]
  ++ (if savings_pct > 0 ∧ worst.vehicle_type ≠ best.vehicle_type then
        [ReasoningItem.savings savings_kg savings_pct worst.vehicle_type]
      else [])
  ++ (if best.manufacturing > best.use_phase then
        [ReasoningItem.manufacturingDominates]
      else if best.use_phase > best.manufacturing * 2 then
        [ReasoningItem.usePhaseDominates]
      else [])
  ++ (if best.greenwashing_flag then
        [ReasoningItem.greenwashAlert best.greenwashing_reason]
      else [])

/-- Shared tail of `recommend_vehicle`: savings, reasoning and result
assembly, given the already-computed best, worst and confidence. -/
def assemble_recommendation (best worst : LifecycleResult)
    (confidence : ℚ) : RecommendationResult :=
  let savings_kg := worst.total - best.total
  let savings_pct := if worst.total > 0 then savings_kg / worst.total * 100 else 0
  let reasoning := build_reasoning best worst savings_kg savings_pct
  ⟨best.vehicle_type, best.total, round1 confidence, round1 savings_kg,
   round1 savings_pct, reasoning⟩

/-- `recommend_vehicle` from `recommendation_logic.py`.  The sorted list is
empty iff the input is, which the code rejects with
`ValueError("No results to evaluate")`; when at least two results are
present, `gap_pct` divides by `second_best.total`, a `ZeroDivisionError`
when that total is zero. -/
def recommend_vehicle (results : List LifecycleResult) :
    Except RecError RecommendationResult :=
  match sortByTotal results with
  | [] => .error .emptyInput
  | best :: rest =>
    let worst := rest.getLastD best
    match rest with
    | [] => .ok (assemble_recommendation best worst 99)
    | second_best :: _ =>
      if second_best.total = 0 then .error .divisionByZero
      else
        let gap_pct := (second_best.total - best.total) / second_best.total * 100
        let confidence := min 99 (50 + gap_pct * (165/100))
        .ok (assemble_recommendation best worst confidence)

/-- Projection used to state concrete facts about a recommendation outcome. -/
def okRecommendation (e : Except RecError RecommendationResult) :
    Option RecommendationResult :=
  match e with
  | .ok r => some r
  | .error _ => none

/-! ## Concrete scenarios used by the specification -/

/-- Scenario A: BEV, 15000 km/year, 10 years, grid 0.233 kg/kWh, medium. -/
def scenarioA : Except CalcError LifecycleResult :=
  calculate_lifecycle "BEV" 15000 10 (233/1000) VehicleSize.medium

/-- Scenario B: ICEV-p, 15000 km/year, 10 years, grid 0.233 kg/kWh, medium. -/
def scenarioB : Except CalcError LifecycleResult :=
  calculate_lifecycle "ICEV-p" 15000 10 (233/1000) VehicleSize.medium

/-- The LifecycleResult computed in scenario A. -/
def resA : LifecycleResult :=
  ⟨"BEV", 15900, 6291, 1400, 23591, 150000, 1573/10, false, none⟩

/-- The LifecycleResult computed in scenario B. -/
def resB : LifecycleResult :=
  ⟨"ICEV-p", 8300, 26910, 350, 35560, 150000, 2371/10, false, none⟩

theorem scenarioA_eval : scenarioA = Except.ok resA := by
  simp [scenarioA, resA, calculate_lifecycle, VEHICLE_PARAMS, bevParams,
    SIZE_MULTIPLIERS, calculate_use_phase, calculate_disposal,
    battery_kwh_actual, manufacturing_kg,
    check_greenwashing, FUEL_EMISSION_FACTORS_petrol,
    GREENWASHING_OPERATIONAL_THRESHOLD_PCT, GREENWASHING_TOTAL_THRESHOLD_KG]
  norm_num [round1, round0, rhe, Int.floor_eq_iff]

theorem scenarioB_eval : scenarioB = Except.ok resB := by
  simp [scenarioB, resB, calculate_lifecycle, VEHICLE_PARAMS, bevParams,
    phevParams, hevParams, icevpParams, SIZE_MULTIPLIERS, calculate_use_phase,
    calculate_disposal, battery_kwh_actual, manufacturing_kg,
    check_greenwashing, FUEL_EMISSION_FACTORS_petrol,
    GREENWASHING_OPERATIONAL_THRESHOLD_PCT, GREENWASHING_TOTAL_THRESHOLD_KG]
  norm_num [round1, round0, rhe, Int.floor_eq_iff]

/-- The result pair fed to the break-even analysis of scenarios A and B. -/
def resultsAB : List LifecycleResult := [okResult scenarioA, okResult scenarioB]

theorem resultsAB_eval : resultsAB = [resA, resB] := by
  rw [resultsAB, scenarioA_eval, scenarioB_eval]
  rfl

theorem sortAB_eval : sortByTotal [resA, resB] = [resA, resB] := by
  simp [sortByTotal, List.insertionSort, List.orderedInsert, leTotal, resA, resB]
  norm_num

/-- Cumulative emission curve of the scenario-A BEV over 10 years:
17300 kg upfront plus 629.1 kg per year. -/
def curveA : List ℚ :=
  [17300, 179291/10, 185582/10, 191873/10, 198164/10, 204455/10,
   210746/10, 217037/10, 223328/10, 229619/10, 23591]

/-- Cumulative emission curve of the scenario-B ICEV-p over 10 years:
8650 kg upfront plus 2691 kg per year. -/
def curveB : List ℚ :=
  [8650, 11341, 14032, 16723, 19414, 22105, 24796, 27487, 30178, 32869, 35560]

theorem curveA_eval : build_cumulative_curve resA 10 = curveA := by
  simp [build_cumulative_curve, resA, curveA, List.range_succ]
  norm_num [round1, rhe, Int.floor_eq_iff]

theorem curveB_eval : build_cumulative_curve resB 10 = curveB := by
  simp [build_cumulative_curve, resB, curveB, List.range_succ]
  norm_num [round1, rhe, Int.floor_eq_iff]

theorem compareAB_eval : compare_best_vs_all resultsAB 10 =
    some ⟨"BEV", List.range 11, [⟨some 5, "BEV", "ICEV-p", curveA, curveB⟩]⟩ := by
  rw [resultsAB_eval]
  simp only [compare_best_vs_all, sortAB_eval, List.map, make_break_even_pair]
  rw [show build_cumulative_curve resA 10 = curveA from curveA_eval,
      show build_cumulative_curve resB 10 = curveB from curveB_eval]
  norm_num [find_break_even_year, resA, resB, curveA, curveB]

/-! ## Claims -/

/-- C1 (counterexample): on input (BEV, annual_km=15000, years=10,
grid_factor=0.233, medium), the returned per_km is 157.3 g/km, not
approximately 15.7 g/km as the claim states: it is more than 1 g/km
(indeed 141.6 g/km) away from 15.7. -/
theorem claim_C1_per_km_not_15_7 :
    (okResult scenarioA).per_km = 1573/10 ∧
    ¬(|(okResult scenarioA).per_km - 157/10| ≤ 1) := by
  rw [scenarioA_eval]
  refine ⟨rfl, ?_⟩
  rw [show (okResult (Except.ok resA)).per_km = 1573/10 from rfl]
  rw [show (1573:ℚ)/10 - 157/10 = 708/5 by norm_num]
  rw [abs_of_nonneg (by norm_num : (0:ℚ) ≤ 708/5)]
  norm_num

/-- C1 (amended): on input (BEV, annual_km=15000, years=10,
grid_factor=0.233, medium), `calculate_lifecycle` returns manufacturing
15900 kg, use_phase 6291.0 kg, disposal 1400 kg, total 23591.0 kg,
per_km 157.3 g/km (not 15.7), and no greenwashing flag. -/
theorem claim_C1_scenarioA_result :
    calculate_lifecycle "BEV" 15000 10 (233/1000) VehicleSize.medium =
      Except.ok ⟨"BEV", 15900, 6291, 1400, 23591, 150000, 1573/10,
                 false, none⟩ := by
  have h := scenarioA_eval
  rw [scenarioA] at h
  rw [h, resA]

/-- C3: for the scenario-A BEV result and the scenario-B ICEV-p result with
years = 10, `compare_best_vs_all` selects BEV as the best vehicle and the
BEV-vs-ICEV-p pair has break-even year 5 (not 0: BEV's year-0 cumulative
17300 is above ICEV-p's 8650). -/
theorem claim_C3_break_even_year_5 :
    (compare_best_vs_all resultsAB 10).map (fun c => c.best_vehicle)
      = some "BEV" ∧
    (compare_best_vs_all resultsAB 10).map
        (fun c => c.pairs.map (fun p => (p.year, p.comparison_vehicle)))
      = some [(some 5, "ICEV-p")] ∧
    (compare_best_vs_all resultsAB 10).map
        (fun c => c.pairs.map (fun p =>
          (p.yearly_best_cumulative.getD 0 0,
           p.yearly_comparison_cumulative.getD 0 0)))
      = some [((17300 : ℚ), (8650 : ℚ))] ∧
    (8650 : ℚ) < 17300 := by
  rw [compareAB_eval]
  norm_num [curveA, curveB]

/-- C2: for every valid input, the PHEV result is identical under any two
grid factors: the built-in PHEV battery capacity is exactly 14 kWh, failing
the strict `battery_capacity_kwh > 14` plug-in test, so the non-plug-in
branch (electric fraction 0.05, electric emissions 0) is taken; moreover no
built-in hybrid entry passes that test, so the 0.42 grid-charged plug-in
fraction is unreachable for every built-in vehicle type. -/
theorem claim_C2_phev_grid_invariant :
    (∀ (annual_km : ℚ) (years : ℕ) (g1 g2 : ℚ) (size : VehicleSize),
      0 < annual_km → 1 ≤ years → years ≤ 30 →
      0 < g1 → g1 ≤ 2 → 0 < g2 → g2 ≤ 2 →
      calculate_lifecycle "PHEV" annual_km years g1 size =
        calculate_lifecycle "PHEV" annual_km years g2 size) ∧
    (∀ vt p, VEHICLE_PARAMS vt = some p → p.fuel_type = "hybrid_petrol" →
      ¬(14 < p.battery_capacity_kwh)) := by
  constructor
  · intro annual_km years g1 g2 size _ _ _ _ _ _ _
    rfl
  · intro vt p h hfuel
    unfold VEHICLE_PARAMS at h
    split_ifs at h <;> injection h with h <;> subst h <;>
      simp_all [bevParams, phevParams, hevParams, icevpParams, icevdParams]
    norm_num

/-- C2 witness: instance at annual_km 12000, years 8, grid factors 1/4 and
2, size large. -/
theorem claim_C2_phev_grid_invariant_witness :
    calculate_lifecycle "PHEV" 12000 8 (1/4) VehicleSize.large =
      calculate_lifecycle "PHEV" 12000 8 2 VehicleSize.large ∧
    ¬(14 < phevParams.battery_capacity_kwh) :=
  ⟨claim_C2_phev_grid_invariant.1 12000 8 (1/4) 2 VehicleSize.large
     (by norm_num) (by norm_num) (by norm_num) (by norm_num) (by norm_num)
     (by norm_num) (by norm_num),
   claim_C2_phev_grid_invariant.2 "PHEV" phevParams rfl rfl⟩

/-- C10: every built-in `VEHICLE_PARAMS` entry has a recognized fuel_type,
so for every built-in vehicle type and valid input `calculate_lifecycle`
succeeds: the "unknown fuel type" branch is unreachable for the built-in
library. -/
theorem claim_C10_unknown_fuel_unreachable :
    ∀ vt p, VEHICLE_PARAMS vt = some p →
      p.fuel_type ∈
        (["electricity", "petrol", "diesel", "hybrid_petrol"] : List String) ∧
      ∀ (annual_km : ℚ) (years : ℕ) (g : ℚ) (size : VehicleSize),
        0 < annual_km → 1 ≤ years → years ≤ 30 → 0 < g → g ≤ 2 →
        ∃ r, calculate_lifecycle vt annual_km years g size = Except.ok r := by
  intro vt p h
  unfold VEHICLE_PARAMS at h
  split_ifs at h with h1 h2 h3 h4 h5 <;> injection h with h <;> subst h
  · subst h1
    exact ⟨by simp [bevParams], fun km y g size _ _ _ _ _ => ⟨_, rfl⟩⟩
  · subst h2
    exact ⟨by simp [phevParams], fun km y g size _ _ _ _ _ => ⟨_, rfl⟩⟩
  · subst h3
    exact ⟨by simp [hevParams], fun km y g size _ _ _ _ _ => ⟨_, rfl⟩⟩
  · subst h4
    exact ⟨by simp [icevpParams], fun km y g size _ _ _ _ _ => ⟨_, rfl⟩⟩
  · subst h5
    exact ⟨by simp [icevdParams], fun km y g size _ _ _ _ _ => ⟨_, rfl⟩⟩

/-- C10 witness: instance at the BEV entry and the scenario-A input. -/
theorem claim_C10_unknown_fuel_unreachable_witness :
    bevParams.fuel_type ∈
      (["electricity", "petrol", "diesel", "hybrid_petrol"] : List String) ∧
    ∃ r, calculate_lifecycle "BEV" 15000 10 (233/1000) VehicleSize.medium =
      Except.ok r :=
  ⟨(claim_C10_unknown_fuel_unreachable "BEV" bevParams rfl).1,
   (claim_C10_unknown_fuel_unreachable "BEV" bevParams rfl).2
     15000 10 (233/1000) VehicleSize.medium (by norm_num) (by norm_num)
     (by norm_num) (by norm_num) (by norm_num)⟩

/-- C7: the greenwashing flag is raised with the primary
(misleading-labelling) reason exactly when use/total < 0.05 and
total > 15000 kg; otherwise with the grid-advocacy reason exactly when the
vehicle is BEV and use/total > 0.70; the flag is raised iff one of the two
conditions holds (so it is false when total = 0, where use/total reads 0),
the two reasons never coincide, and a reason is present iff the flag is
raised. -/
theorem claim_C7_greenwashing_rules :
    ∀ (use_kg total_kg : ℚ) (vt : String),
      (check_greenwashing use_kg total_kg vt =
          (true, some GreenwashReason.misleadingLabel) ↔
        use_kg / total_kg < 5/100 ∧ 15000 < total_kg) ∧
      (check_greenwashing use_kg total_kg vt =
          (true, some GreenwashReason.gridAdvocacy) ↔
        ¬(use_kg / total_kg < 5/100 ∧ 15000 < total_kg) ∧
          vt = "BEV" ∧ 70/100 < use_kg / total_kg) ∧
      ((check_greenwashing use_kg total_kg vt).1 = true ↔
        (use_kg / total_kg < 5/100 ∧ 15000 < total_kg) ∨
          (vt = "BEV" ∧ 70/100 < use_kg / total_kg)) ∧
      ((check_greenwashing use_kg total_kg vt).2.isSome =
        (check_greenwashing use_kg total_kg vt).1) := by
  intro u t vt
  unfold check_greenwashing GREENWASHING_OPERATIONAL_THRESHOLD_PCT
    GREENWASHING_TOTAL_THRESHOLD_KG
  by_cases ht : t = 0
  · subst ht
    norm_num
  · simp only [if_neg ht]
    split_ifs with h1 h2 <;> simp_all

theorem build_cumulative_curve_length (r : LifecycleResult) (years : ℕ) :
    (build_cumulative_curve r years).length = years + 1 := by
  unfold build_cumulative_curve
  rw [List.length_map, List.length_range]

/-- `_find_break_even_year` returns the first index at which the best curve
is at or below the comparison curve, and `none` exactly when no such index
exists within the zipped length. -/
theorem find_break_even_year_spec (bs cs : List ℚ) :
    (∀ k, find_break_even_year bs cs = some k →
      k < bs.length ∧ k < cs.length ∧ bs.getD k 0 ≤ cs.getD k 0 ∧
      ∀ j < k, cs.getD j 0 < bs.getD j 0) ∧
    (find_break_even_year bs cs = none →
      ∀ j, j < bs.length → j < cs.length → cs.getD j 0 < bs.getD j 0) := by
  induction bs generalizing cs with
  | nil =>
    constructor
    · intro k hk
      simp [find_break_even_year] at hk
    · intro _ j hj _
      simp at hj
  | cons b bs ih =>
    cases cs with
    | nil =>
      constructor
      · intro k hk
        simp [find_break_even_year] at hk
      · intro _ j _ hj
        simp at hj
    | cons c cs =>
      by_cases hbc : b ≤ c
      · constructor
        · intro k hk
          rw [find_break_even_year, if_pos hbc] at hk
          obtain rfl : (0 : ℕ) = k := Option.some.inj hk
          refine ⟨by simp, by simp, by simpa using hbc, by omega⟩
        · intro hnone
          rw [find_break_even_year, if_pos hbc] at hnone
          simp at hnone
      · have hcb : c < b := lt_of_not_le hbc
        constructor
        · intro k hk
          rw [find_break_even_year, if_neg hbc] at hk
          rw [Option.map_eq_some'] at hk
          obtain ⟨j, hj, rfl⟩ := hk
          obtain ⟨h1, h2, h3, h4⟩ := (ih cs).1 j hj
          refine ⟨by simpa using Nat.succ_lt_succ h1,
                  by simpa using Nat.succ_lt_succ h2,
                  by simpa using h3, ?_⟩
          intro y hy
          cases y with
          | zero => simpa using hcb
          | succ y' =>
            have := h4 y' (by omega)
            simpa using this
        · intro hnone
          rw [find_break_even_year, if_neg hbc] at hnone
          rw [Option.map_eq_none'] at hnone
          intro y hy1 hy2
          cases y with
          | zero => simpa using hcb
          | succ y' =>
            have := (ih cs).2 hnone y' (by simpa using hy1) (by simpa using hy2)
            simpa using this

/-- C4: in every `BreakEvenPair` produced by `compare_best_vs_all`, a
present year is the first crossing (the best curve is at or below the
comparison curve there and strictly above at every earlier year), and an
absent year means the best curve stays strictly above the comparison curve
at every year 0..years. -/
theorem claim_C4_first_crossing :
    ∀ (results : List LifecycleResult) (years : ℕ) (c : BreakEvenComparison),
      compare_best_vs_all results years = some c →
      ∀ p ∈ c.pairs,
        (∀ yr, p.year = some yr →
          p.yearly_best_cumulative.getD yr 0 ≤
            p.yearly_comparison_cumulative.getD yr 0 ∧
          ∀ y < yr,
            p.yearly_comparison_cumulative.getD y 0 <
              p.yearly_best_cumulative.getD y 0) ∧
        (p.year = none → ∀ y ≤ years,
          p.yearly_comparison_cumulative.getD y 0 <
            p.yearly_best_cumulative.getD y 0) := by
  intro results years c hc p hp
  unfold compare_best_vs_all at hc
  split_ifs at hc
  cases hsort : sortByTotal results with
  | nil =>
      rw [hsort] at hc
      exact absurd hc (by simp)
  | cons best others =>
      rw [hsort] at hc
      injection hc with hc
      subst hc
      simp only [List.mem_map] at hp
      obtain ⟨other, hother, rfl⟩ := hp
      have hspec := find_break_even_year_spec
        (build_cumulative_curve best years) (build_cumulative_curve other years)
      constructor
      · intro yr hyr
        have h1 := hspec.1 yr (by simpa [make_break_even_pair] using hyr)
        refine ⟨by simpa [make_break_even_pair] using h1.2.2.1, ?_⟩
        intro y hy
        have := h1.2.2.2 y hy
        simpa [make_break_even_pair] using this
      · intro hnone y hy
        have h2 := hspec.2 (by simpa [make_break_even_pair] using hnone) y
          (by rw [build_cumulative_curve_length]; omega)
          (by rw [build_cumulative_curve_length]; omega)
        simpa [make_break_even_pair] using h2

/-- C4 witness: instance at the scenario A/B comparison, year 5. -/
theorem claim_C4_first_crossing_witness :
    curveA.getD 5 0 ≤ curveB.getD 5 0 :=
  ((claim_C4_first_crossing resultsAB 10
      ⟨"BEV", List.range 11, [⟨some 5, "BEV", "ICEV-p", curveA, curveB⟩]⟩
      compareAB_eval
      ⟨some 5, "BEV", "ICEV-p", curveA, curveB⟩
      (by simp)).1 5 rfl).1

/-- C5: `compare_best_vs_all` returns `none` (not an error) for fewer than
two results, and for N ≥ 2 results returns a comparison with exactly N−1
pairs — one per non-best vehicle of the total-sorted input, in
ascending-total order. -/
theorem claim_C5_pair_shape :
    ∀ (results : List LifecycleResult) (years : ℕ),
      (results.length < 2 → compare_best_vs_all results years = none) ∧
      (2 ≤ results.length → ∃ c best others,
        compare_best_vs_all results years = some c ∧
        sortByTotal results = best :: others ∧
        (best :: others).Perm results ∧
        List.Sorted leTotal (best :: others) ∧
        c.pairs.length = results.length - 1 ∧
        c.pairs = others.map (fun other => make_break_even_pair best other years)) := by
  intro results years
  constructor
  · intro h
    unfold compare_best_vs_all
    rw [if_pos h]
  · intro h
    have hperm : (sortByTotal results).Perm results :=
      List.perm_insertionSort leTotal results
    have hlen : (sortByTotal results).length = results.length := hperm.length_eq
    cases hsort : sortByTotal results with
    | nil =>
      rw [hsort] at hlen
      simp at hlen
      omega
    | cons best others =>
      rw [hsort] at hperm hlen
      refine ⟨⟨best.vehicle_type, List.range (years + 1),
               others.map (fun other => make_break_even_pair best other years)⟩,
              best, others, ?_, rfl, hperm, ?_, ?_, rfl⟩
      · unfold compare_best_vs_all
        rw [if_neg (by omega), hsort]
      · rw [← hsort]
        exact List.sorted_insertionSort leTotal results
      · simp only [List.length_map]
        simp at hlen
        omega

/-- C5 witness: the empty input yields `none`, and the two-result scenario
input yields a comparison with one pair. -/
theorem claim_C5_pair_shape_witness :
    compare_best_vs_all [] 10 = none ∧
    ∃ c best others,
      compare_best_vs_all resultsAB 10 = some c ∧
      sortByTotal resultsAB = best :: others ∧
      (best :: others).Perm resultsAB ∧
      List.Sorted leTotal (best :: others) ∧
      c.pairs.length = resultsAB.length - 1 ∧
      c.pairs = others.map (fun other => make_break_even_pair best other 10) :=
  ⟨(claim_C5_pair_shape [] 10).1 (by norm_num),
   (claim_C5_pair_shape resultsAB 10).2 (by norm_num [resultsAB])⟩



theorem sortByTotal_perm (l : List LifecycleResult) : (sortByTotal l).Perm l :=
  List.perm_insertionSort leTotal l

theorem sortByTotal_sorted (l : List LifecycleResult) :
    List.Sorted leTotal (sortByTotal l) :=
  List.sorted_insertionSort leTotal l

theorem round1_intCast (n : ℤ) : round1 ((n : ℚ)) = n := by
  unfold round1
  rw [show (10 : ℚ) * (n : ℚ) = ((10 * n : ℤ) : ℚ) by push_cast; ring, rhe_intCast]
  push_cast
  ring

theorem round1_mem_bounds (a b : ℤ) {x : ℚ} (ha : (a : ℚ) ≤ x)
    (hb : x ≤ (b : ℚ)) : (a : ℚ) ≤ round1 x ∧ round1 x ≤ (b : ℚ) := by
  unfold round1
  have h1 : (10 * a : ℤ) ≤ rhe (10 * x) :=
    le_rhe_of_intCast_le (by push_cast; linarith)
  have h2 : rhe (10 * x) ≤ (10 * b : ℤ) :=
    rhe_le_of_le_intCast (by push_cast; linarith)
  have h1' : ((10 * a : ℤ) : ℚ) ≤ (rhe (10 * x) : ℚ) := by exact_mod_cast h1
  have h2' : ((rhe (10 * x) : ℤ) : ℚ) ≤ ((10 * b : ℤ) : ℚ) := by exact_mod_cast h2
  push_cast at h1' h2'
  constructor <;> linarith

/-- A LifecycleResult with a negative total (the schema does not forbid
negative emission values). -/
def negA : LifecycleResult := ⟨"N1", 0, 0, 0, -2, 0, 0, false, none⟩

/-- A second LifecycleResult with a negative total. -/
def negB : LifecycleResult := ⟨"N2", 0, 0, 0, -1, 0, 0, false, none⟩

theorem sortNeg_eval : sortByTotal [negA, negB] = [negA, negB] := by
  simp [sortByTotal, List.insertionSort, List.orderedInsert, leTotal, negA, negB]

/-- C6 (counterexample): on the pair of results with totals −2 and −1,
`recommend_vehicle` succeeds but returns confidence −115.0, outside
[50.0, 99.0]: the claim's range fails for results whose totals are not
positive. -/
theorem claim_C6_conf_out_of_range :
    okRecommendation (recommend_vehicle [negA, negB]) ≠ none ∧
    (okRecommendation (recommend_vehicle [negA, negB])).map
      (fun rec => rec.confidence_percentage) = some (-115) ∧
    ¬(50 ≤ (-115 : ℚ)) := by
  unfold recommend_vehicle
  rw [sortNeg_eval]
  norm_num [negA, negB, assemble_recommendation, okRecommendation,
    round1, rhe, Int.floor_eq_iff]
  simp

/-- C6 (amended): for ≥ 2 results whose totals are all positive (as every
calculator output is), `recommend_vehicle` succeeds with
confidence_percentage = round(min(99, 50 + gap_pct × 1.65), 1) for
gap_pct = (second_best.total − best.total)/second_best.total × 100 over the
total-sorted input, and that confidence lies in [50, 99]; for exactly one
result the confidence is exactly 99.0. -/
theorem claim_C6_confidence_formula :
    (∀ results : List LifecycleResult, 2 ≤ results.length →
      (∀ r ∈ results, 0 < r.total) →
      ∃ rec best second rest,
        recommend_vehicle results = Except.ok rec ∧
        sortByTotal results = best :: second :: rest ∧
        rec.confidence_percentage =
          round1 (min 99 (50 + (second.total - best.total) / second.total
            * 100 * (165/100))) ∧
        50 ≤ rec.confidence_percentage ∧ rec.confidence_percentage ≤ 99) ∧
    (∀ r : LifecycleResult,
      ∃ rec, recommend_vehicle [r] = Except.ok rec ∧
        rec.confidence_percentage = 99) := by
  constructor
  · intro results hlen hpos
    have hperm := sortByTotal_perm results
    have hlen2 : (sortByTotal results).length = results.length := hperm.length_eq
    have hsorted := sortByTotal_sorted results
    cases hsort : sortByTotal results with
    | nil =>
      rw [hsort] at hlen2
      simp at hlen2
      omega
    | cons best rest0 =>
      cases rest0 with
      | nil =>
        rw [hsort] at hlen2
        simp at hlen2
        omega
      | cons second rest =>
        rw [hsort] at hperm hsorted
        have hbs : leTotal best second := by
          rcases List.sorted_cons.mp hsorted with ⟨hall, _⟩
          exact hall second (by simp)
        have hmem : second ∈ results := hperm.subset (by simp)
        have hsec_pos : 0 < second.total := hpos second hmem
        unfold recommend_vehicle
        rw [hsort]
        simp only [if_neg hsec_pos.ne']
        set conf := min (99:ℚ) (50 + (second.total - best.total) / second.total
          * 100 * (165/100)) with hconf
        have hg0 : 0 ≤ (second.total - best.total) / second.total * 100 * (165/100) := by
          have : 0 ≤ (second.total - best.total) / second.total :=
            div_nonneg (sub_nonneg.mpr hbs) hsec_pos.le
          positivity
        have hlo : (50:ℚ) ≤ conf := le_min (by norm_num) (by linarith)
        have hhi : conf ≤ 99 := min_le_left _ _
        have hb := round1_mem_bounds 50 99 (by exact_mod_cast hlo) (by exact_mod_cast hhi)
        refine ⟨_, best, second, rest, rfl, rfl, ?_, ?_, ?_⟩
        · simp [assemble_recommendation]
        · simpa using hb.1
        · simpa using hb.2
  · intro r
    refine ⟨_, rfl, ?_⟩
    have h99 : round1 (99:ℚ) = 99 := by
      rw [show (99:ℚ) = ((99:ℤ):ℚ) by norm_num]
      exact round1_intCast 99
    simp [assemble_recommendation, h99]

/-- C6 witness: instance of the amended claim at the scenario A/B results
and at the single scenario-B result. -/
theorem claim_C6_confidence_formula_witness :
    (∃ rec best second rest,
      recommend_vehicle resultsAB = Except.ok rec ∧
      sortByTotal resultsAB = best :: second :: rest ∧
      rec.confidence_percentage =
        round1 (min 99 (50 + (second.total - best.total) / second.total
          * 100 * (165/100))) ∧
      50 ≤ rec.confidence_percentage ∧ rec.confidence_percentage ≤ 99) ∧
    (∃ rec, recommend_vehicle [resB] = Except.ok rec ∧
      rec.confidence_percentage = 99) :=
  ⟨claim_C6_confidence_formula.1 resultsAB (by rw [resultsAB_eval]; norm_num)
     (by
       rw [resultsAB_eval]
       intro r hr
       simp at hr
       rcases hr with rfl | rfl <;> norm_num [resA, resB]),
   claim_C6_confidence_formula.2 resB⟩

/-- A LifecycleResult with a zero total. -/
def zeroA : LifecycleResult := ⟨"Z1", 0, 0, 0, 0, 0, 0, false, none⟩

/-- A second LifecycleResult with a zero total. -/
def zeroB : LifecycleResult := ⟨"Z2", 0, 0, 0, 0, 0, 0, false, none⟩

/-- C9 (counterexample): on the non-empty input of two results with zero
totals, `recommend_vehicle` does not return a result: the `gap_pct`
division by `second_best.total` raises ZeroDivisionError (modelled as the
divisionByZero error), so "every non-empty input returns without raising"
fails. -/
theorem claim_C9_zero_total_divzero :
    recommend_vehicle [zeroA, zeroB] = Except.error RecError.divisionByZero ∧
    ([zeroA, zeroB] : List LifecycleResult) ≠ [] := by
  constructor
  · unfold recommend_vehicle
    rw [show sortByTotal [zeroA, zeroB] = [zeroA, zeroB] by
      simp [sortByTotal, List.insertionSort, List.orderedInsert, leTotal,
        zeroA, zeroB]]
    simp [zeroB]
  · simp

/-- C9 (amended): `recommend_vehicle` returns the empty-input error iff the
input is empty, and for every non-empty input whose totals are all positive
(as every calculator output is) it returns a fully-formed
RecommendationResult; with a zero second-best total it instead fails with a
division-by-zero. -/
theorem claim_C9_empty_input_error :
    ∀ results : List LifecycleResult,
      (recommend_vehicle results = Except.error RecError.emptyInput ↔
        results = []) ∧
      ((∀ r ∈ results, 0 < r.total) → results ≠ [] →
        ∃ rec, recommend_vehicle results = Except.ok rec) := by
  intro results
  cases hsort : sortByTotal results with
  | nil =>
    have hnil : results = [] := by
      have hp := sortByTotal_perm results
      rw [hsort] at hp
      exact hp.symm.eq_nil
    subst hnil
    constructor
    · constructor
      · intro _; rfl
      · intro _; rfl
    · intro _ hne
      exact absurd rfl hne
  | cons best rest =>
    have hne : results ≠ [] := by
      intro h
      subst h
      simp [sortByTotal, List.insertionSort] at hsort
    constructor
    · constructor
      · intro herr
        unfold recommend_vehicle at herr
        rw [hsort] at herr
        cases rest with
        | nil => simp at herr
        | cons second rest' =>
          by_cases h0 : second.total = 0
          · simp [h0] at herr
          · simp [h0] at herr
      · intro h
        exact absurd h hne
    · intro hpos _
      cases rest with
      | nil =>
        have heq : recommend_vehicle results =
            Except.ok (assemble_recommendation best (List.getLastD [] best) 99) := by
          unfold recommend_vehicle
          rw [hsort]
        exact ⟨_, heq⟩
      | cons second rest' =>
        have hmem : second ∈ results :=
          (sortByTotal_perm results).subset (by rw [hsort]; simp)
        have hpos2 := hpos second hmem
        have heq : recommend_vehicle results =
            Except.ok (assemble_recommendation best
              ((second :: rest').getLastD best)
              (min 99 (50 + (second.total - best.total) / second.total * 100
                * (165/100)))) := by
          unfold recommend_vehicle
          rw [hsort]
          simp only [if_neg hpos2.ne']
        exact ⟨_, heq⟩

/-- C9 witness: instance of the amended claim at the singleton scenario-A
input. -/
theorem claim_C9_empty_input_error_witness :
    (recommend_vehicle [resA] = Except.error RecError.emptyInput ↔
      ([resA] : List LifecycleResult) = []) ∧
    ∃ rec, recommend_vehicle [resA] = Except.ok rec :=
  ⟨(claim_C9_empty_input_error [resA]).1,
   (claim_C9_empty_input_error [resA]).2
     (by
       intro r hr
       simp at hr
       rw [hr]
       norm_num [resA])
     (by simp)⟩



theorem rhe_eq_of_fract_lt {x : ℚ} (h : x - ⌊x⌋ < 1/2) : rhe x = ⌊x⌋ := by
  unfold rhe
  rw [if_pos h]

theorem rhe_eq_of_fract_gt {x : ℚ} (h : 1/2 < x - ⌊x⌋) : rhe x = ⌊x⌋ + 1 := by
  unfold rhe
  rw [if_neg (by linarith), if_pos h]

/-- Adding an integer plus one half before rounding half-to-even moves the
result up by that integer plus zero or one. -/
theorem rhe_add_int_half (K : ℤ) (y : ℚ) :
    0 ≤ rhe (y + K + 1/2) - K - rhe y ∧ rhe (y + K + 1/2) - K - rhe y ≤ 1 := by
  have hle := Int.floor_le y
  have hlt := Int.lt_floor_add_one y
  rcases lt_trichotomy (y - ⌊y⌋) (1/2) with hF | hF | hF
  · have hry : rhe y = ⌊y⌋ := rhe_eq_of_fract_lt hF
    have hfl : ⌊y + (K : ℚ) + 1/2⌋ = K + ⌊y⌋ := by
      rw [Int.floor_eq_iff]
      refine ⟨by push_cast; linarith, by push_cast; linarith⟩
    rcases rhe_eq_floor_or_succ (y + (K : ℚ) + 1/2) with h | h <;>
      rw [h, hfl, hry] <;> omega
  · have harg : y + (K : ℚ) + 1/2 = ((K + ⌊y⌋ + 1 : ℤ) : ℚ) := by
      push_cast
      linarith
    rw [harg, rhe_intCast]
    rcases rhe_eq_floor_or_succ y with h | h <;> rw [h] <;> omega
  · have hry : rhe y = ⌊y⌋ + 1 := rhe_eq_of_fract_gt hF
    have hfl : ⌊y + (K : ℚ) + 1/2⌋ = K + ⌊y⌋ + 1 := by
      rw [Int.floor_eq_iff]
      refine ⟨by push_cast; linarith, by push_cast; linarith⟩
    rcases rhe_eq_floor_or_succ (y + (K : ℚ) + 1/2) with h | h <;>
      rw [h, hfl, hry] <;> omega

/-- When manufacturing and disposal are exact multiples of 0.1, the rounded
total differs from the sum of the rounded parts by at most 0.1. -/
theorem total_deviation_exact {m d : ℚ} (u : ℚ) (hm : round1 m = m)
    (hd : round1 d = d) :
    |round1 (m + u + d) - (round1 m + round1 u + round1 d)| ≤ 1/10 := by
  rw [hm, hd]
  have h1 := abs_round1_sub_le (m + u + d)
  have h2 := abs_round1_sub_le u
  have e : round1 (m + u + d) - (m + round1 u + d)
      = (round1 (m + u + d) - (m + u + d)) - (round1 u - u) := by ring
  rw [e]
  calc |(round1 (m + u + d) - (m + u + d)) - (round1 u - u)|
      ≤ |round1 (m + u + d) - (m + u + d)| + |round1 u - u| := abs_sub _ _
    _ ≤ 1/20 + 1/20 := add_le_add h1 h2
    _ = 1/10 := by norm_num

/-- The HEV-small case: manufacturing 7076.25 and disposal 263.5 together
shift the total's argument by an integer plus one half in tenth units, so
the deviation still stays within 0.1. -/
theorem total_deviation_hev_small (u : ℚ) :
    |round1 (28305/4 + u + 527/2) -
      (round1 (28305/4) + round1 u + round1 (527/2))| ≤ 1/10 := by
  have hm : round1 (28305/4 : ℚ) = 35381/5 := by
    norm_num [round1, rhe, Int.floor_eq_iff]
  have hd : round1 (527/2 : ℚ) = 527/2 := by
    norm_num [round1, rhe, Int.floor_eq_iff]
  rw [hm, hd]
  unfold round1
  rw [show (10 : ℚ) * (28305/4 + u + 527/2) =
        10 * u + ((73397 : ℤ) : ℚ) + 1/2 by push_cast; ring]
  obtain ⟨h0, h1⟩ := rhe_add_int_half 73397 (10 * u)
  have e : ((rhe (10 * u + ((73397 : ℤ) : ℚ) + 1/2) : ℚ)) / 10 -
        (35381/5 + (rhe (10 * u) : ℚ) / 10 + 527/2)
      = ((rhe (10 * u + ((73397 : ℤ) : ℚ) + 1/2) : ℚ) - 73397 -
          (rhe (10 * u) : ℚ)) / 10 := by
    ring
  rw [e, abs_div, show |(10 : ℚ)| = 10 by norm_num]
  have hD0 : (0 : ℚ) ≤ (rhe (10 * u + ((73397 : ℤ) : ℚ) + 1/2) : ℚ) - 73397 -
      (rhe (10 * u) : ℚ) := by
    exact_mod_cast h0
  have hD1 : (rhe (10 * u + ((73397 : ℤ) : ℚ) + 1/2) : ℚ) - 73397 -
      (rhe (10 * u) : ℚ) ≤ 1 := by
    exact_mod_cast h1
  rw [abs_of_nonneg hD0]
  linarith

theorem VEHICLE_PARAMS_mem {vt : String} {p : VehicleParams}
    (h : VEHICLE_PARAMS vt = some p) :
    p ∈ [bevParams, phevParams, hevParams, icevpParams, icevdParams] := by
  unfold VEHICLE_PARAMS at h
  split_ifs at h <;> injection h with h <;> subst h <;> simp

theorem calculate_lifecycle_ok_shape {vt : String} {km : ℚ} {years : ℕ}
    {g : ℚ} {size : VehicleSize} {r : LifecycleResult}
    (h : calculate_lifecycle vt km years g size = Except.ok r) :
    ∃ p u, VEHICLE_PARAMS vt = some p ∧
      calculate_use_phase p (km * (years : ℚ)) g (SIZE_MULTIPLIERS size) =
        Except.ok u ∧
      r.manufacturing = round1 (manufacturing_kg p (SIZE_MULTIPLIERS size)) ∧
      r.use_phase = round1 u ∧
      r.disposal = round1 (calculate_disposal p
        (battery_kwh_actual p (SIZE_MULTIPLIERS size)) (SIZE_MULTIPLIERS size)) ∧
      r.total = round1 (manufacturing_kg p (SIZE_MULTIPLIERS size) + u +
        calculate_disposal p (battery_kwh_actual p (SIZE_MULTIPLIERS size))
          (SIZE_MULTIPLIERS size)) := by
  simp only [calculate_lifecycle] at h
  cases hp : VEHICLE_PARAMS vt with
  | none => simp [hp] at h
  | some p =>
    simp only [hp] at h
    cases hu : calculate_use_phase p (km * (years : ℚ)) g (SIZE_MULTIPLIERS size) with
    | error e => simp [hu] at h
    | ok u =>
      simp only [hu] at h
      injection h with h
      subst h
      exact ⟨p, u, rfl, hu, rfl, rfl, rfl, rfl⟩

theorem use_phase_ok_nonneg {p : VehicleParams}
    (hp : p ∈ [bevParams, phevParams, hevParams, icevpParams, icevdParams])
    {tkm g q u : ℚ} (htkm : 0 ≤ tkm) (hg : 0 ≤ g) (hq : 0 ≤ q)
    (h : calculate_use_phase p tkm g q = Except.ok u) : 0 ≤ u := by
  simp at hp
  rcases hp with rfl | rfl | rfl | rfl | rfl <;>
  · norm_num [calculate_use_phase, bevParams, phevParams, hevParams,
      icevpParams, icevdParams, FUEL_EMISSION_FACTORS_petrol,
      FUEL_EMISSION_FACTORS_diesel, PHEV_ELECTRIC_FRACTION] at h
    try simp at h
    rw [← h]
    positivity

theorem manufacturing_disposal_cases {p : VehicleParams}
    (hp : p ∈ [bevParams, phevParams, hevParams, icevpParams, icevdParams])
    (size : VehicleSize) :
    (0 ≤ manufacturing_kg p (SIZE_MULTIPLIERS size) ∧
     0 ≤ calculate_disposal p (battery_kwh_actual p (SIZE_MULTIPLIERS size))
       (SIZE_MULTIPLIERS size)) ∧
    ((round1 (manufacturing_kg p (SIZE_MULTIPLIERS size)) =
        manufacturing_kg p (SIZE_MULTIPLIERS size) ∧
      round1 (calculate_disposal p (battery_kwh_actual p (SIZE_MULTIPLIERS size))
          (SIZE_MULTIPLIERS size)) =
        calculate_disposal p (battery_kwh_actual p (SIZE_MULTIPLIERS size))
          (SIZE_MULTIPLIERS size)) ∨
     (manufacturing_kg p (SIZE_MULTIPLIERS size) = 28305/4 ∧
      calculate_disposal p (battery_kwh_actual p (SIZE_MULTIPLIERS size))
          (SIZE_MULTIPLIERS size) = 527/2)) := by
  simp at hp
  rcases hp with rfl | rfl | rfl | rfl | rfl <;> cases size <;>
    norm_num [manufacturing_kg, battery_kwh_actual, calculate_disposal,
      SIZE_MULTIPLIERS, bevParams, phevParams, hevParams, icevpParams,
      icevdParams, round1, rhe, Int.floor_eq_iff]

/-- C8: for every valid input accepted by the calculator, the rounded total
differs from the sum of the three independently rounded phase fields by at
most 0.1 kg, and the total is nonnegative. -/
theorem claim_C8_total_consistency :
    ∀ (vt : String) (annual_km : ℚ) (years : ℕ) (g : ℚ) (size : VehicleSize)
      (r : LifecycleResult),
      0 < annual_km → annual_km ≤ 100000 → 1 ≤ years → years ≤ 30 →
      0 < g → g ≤ 2 →
      calculate_lifecycle vt annual_km years g size = Except.ok r →
      |r.total - (r.manufacturing + r.use_phase + r.disposal)| ≤ 1/10 ∧
      0 ≤ r.total := by
  intro vt km years g size r hkm _ _ _ hg1 _ hok
  obtain ⟨p, u, hp, hu, hm, huse, hd, ht⟩ := calculate_lifecycle_ok_shape hok
  have hpmem := VEHICLE_PARAMS_mem hp
  have hq0 : 0 ≤ SIZE_MULTIPLIERS size := by
    cases size <;> norm_num [SIZE_MULTIPLIERS]
  have htkm : 0 ≤ km * (years : ℚ) := by positivity
  have hu0 : 0 ≤ u := use_phase_ok_nonneg hpmem htkm hg1.le hq0 hu
  obtain ⟨⟨hm0, hd0⟩, hcases⟩ := manufacturing_disposal_cases hpmem size
  rw [hm, huse, hd, ht]
  constructor
  · rcases hcases with ⟨hrm, hrd⟩ | ⟨hmv, hdv⟩
    · exact total_deviation_exact u hrm hrd
    · rw [hmv, hdv]
      exact total_deviation_hev_small u
  · exact round1_nonneg (by linarith)

/-- C8 witness: instance at the scenario-A input and result. -/
theorem claim_C8_total_consistency_witness :
    |resA.total - (resA.manufacturing + resA.use_phase + resA.disposal)| ≤ 1/10 ∧
    0 ≤ resA.total :=
  claim_C8_total_consistency "BEV" 15000 10 (233/1000) VehicleSize.medium resA
    (by norm_num) (by norm_num) (by norm_num) (by norm_num) (by norm_num)
    (by norm_num) scenarioA_eval

end EcoLCA
